import Mathlib

/-!
Shallow embedding of `src/libs/hwui/Glop.h` (Android hwui draw descriptor).

The header declares a passive value record, `struct Glop`, bundling the state
of one GL draw: bounds, mesh, fill (with an untagged `union Filter`),
transform and blend.  C++ `float` members are modelled by their 32-bit
patterns as naturals, since the struct only stores and retrieves them;
pointers are modelled as addresses with 0 standing for `nullptr`; `GLuint`
and `GLenum` members are naturals (no arithmetic is ever performed on them,
so no wrap-around modelling is needed).
-/

namespace Hwui

/-- Bit pattern of a C++ 32-bit `float`; the descriptor never computes with
its floats, it only stores them, so the pattern is the whole semantics. -/
abbrev F32 := Nat

/-- A machine address standing for a C++ pointer; address 0 is `nullptr`. -/
abbrev Ptr := Nat

/-- Enumerator `kNone_Attrib = 0` of `VertexAttribFlags` (Glop.h line 41). -/
def kNone_Attrib : Nat := 0

/-- Enumerator `kTextureCoord_Attrib = 1 << 0` (Glop.h line 42). -/
def kTextureCoord_Attrib : Nat := 1 <<< 0

/-- Enumerator `kColor_Attrib = 1 << 1` (Glop.h line 43). -/
def kColor_Attrib : Nat := 1 <<< 1

/-- Enumerator `kAlpha_Attrib = 1 << 2` (Glop.h line 44). -/
def kAlpha_Attrib : Nat := 1 <<< 2

/-- The optional vertex-attribute flag values of the enumeration, in
declaration order.  The enumeration declares no flag for the position
attribute: per the comment at Glop.h line 40, position is always enabled
by MeshState and never appears as an optional flag. -/
def optionalAttribFlags : List Nat :=
  [kTextureCoord_Attrib, kColor_Attrib, kAlpha_Attrib]

/-- `Glop::FloatColor` (Glop.h lines 58-60): four floats declared in the
order a, r, g, b. -/
structure FloatColor where
  a : F32
  r : F32
  g : F32
  b : F32

/-- The in-memory layout of a `FloatColor`: its four floats in declaration
order, i.e. the float at byte offset 0 first. -/
def FloatColor.declOrder (c : FloatColor) : List F32 :=
  [c.a, c.r, c.g, c.b]

/-- Modelled from the spec: `Rect` is declared in Rect.h, which is not part
of the supplied source.  The spec describes it as an axis-aligned rectangle
(left, top, right, bottom); its default constructor zeroes the four edges. -/
structure Rect where
  left : F32
  top : F32
  right : F32
  bottom : F32

/-- Modelled from the spec: the zero rectangle a default-constructed `Rect`
holds. -/
def Rect.zero : Rect := ⟨0, 0, 0, 0⟩

/-- Modelled from the spec: `Matrix4` is declared in Matrix.h, which is not
part of the supplied source; a 4x4 float matrix stored as 16 floats, whose
default constructor loads the identity. -/
structure Matrix4 where
  data : Fin 16 → F32

/-- Bit pattern of the `float` value 1.0f. -/
def floatOneBits : F32 := 0x3F800000

/-- Modelled from the spec: the identity matrix a default-constructed
`Matrix4` holds, 1.0f on the diagonal and 0.0f elsewhere. -/
def Matrix4.identity : Matrix4 :=
  ⟨fun i => if (i : Nat) % 5 = 0 then floatOneBits else 0⟩

/-- Modelled from the spec: `ProgramDescription::ColorFilterMode` is declared
in ProgramDescription.h, which is not part of the supplied source; the spec
says the color-filter mode is a tag drawn from \x7bnone, matrix,
blend-mode-*\x7d, so the blend constructor carries which blend mode. -/
inductive ColorFilterMode where
  | none
  | matrix
  | blend (xfermode : Nat)

/-- Raw storage of the untagged `union Glop::Fill::Filter` (Glop.h lines
91-97): its larger arm is `struct Matrix` with 16 + 4 floats, so the union
occupies 20 float-sized slots; slot i is the float at byte offset 4*i. -/
abbrev FilterStorage := Fin 20 → F32

/-- The `Matrix` arm of the union (Glop.h lines 92-95): `float matrix[16]`
followed by `float vector[4]`. -/
@[ext] structure MatrixArm where
  matrix : Fin 16 → F32
  vector : Fin 4 → F32

/-- Writing the matrix arm of the union: `matrix[i]` lands in slots 0..15 and
`vector[j]` in slots 16..19, overwriting the whole storage. -/
def writeMatrixArm (_st : FilterStorage) (m : MatrixArm) : FilterStorage :=
  fun i =>
    if h : (i : Nat) < 16 then m.matrix ⟨i, h⟩
    else m.vector ⟨(i : Nat) - 16, by omega⟩

/-- Reading the matrix arm of the union back from storage. -/
def readMatrixArm (st : FilterStorage) : MatrixArm where
  matrix := fun j => st ⟨(j : Nat), by omega⟩
  vector := fun j => st ⟨16 + (j : Nat), by omega⟩

/-- Writing the color arm of the union: the `FloatColor` occupies the first
four slots (a, r, g, b in declaration order); the bytes of the storage beyond
the color arm are not written. -/
def writeColorArm (st : FilterStorage) (c : FloatColor) : FilterStorage :=
  fun i =>
    if (i : Nat) = 0 then c.a
    else if (i : Nat) = 1 then c.r
    else if (i : Nat) = 2 then c.g
    else if (i : Nat) = 3 then c.b
    else st i

/-- Reading the color arm of the union back from storage. -/
def readColorArm (st : FilterStorage) : FloatColor :=
  ⟨st 0, st 1, st 2, st 3⟩

/-- `Glop::Mesh` (Glop.h lines 70-79): vertex and index data.  `vertexCount`
is declared as a C++ `int`, hence modelled as an integer. -/
structure Mesh where
  vertexFlags : Nat
  primitiveMode : Nat
  vertexBufferObject : Nat
  indexBufferObject : Nat
  vertices : Ptr
  indices : Ptr
  vertexCount : Int
  stride : Int

/-- `Glop::Fill` (Glop.h lines 81-98): program pointer, constant color,
color-filter mode tag, and the untagged filter union. -/
structure Fill where
  program : Ptr
  color : FloatColor
  filterMode : ColorFilterMode
  filter : FilterStorage

/-- `Glop::Transform` (Glop.h lines 100-105). -/
structure Transform where
  ortho : Matrix4
  modelView : Matrix4
  canvas : Matrix4
  fudgingOffset : Bool

/-- `Glop::Blend` (Glop.h lines 107-110): GL source and destination blend
factors. -/
structure Blend where
  src : Nat
  dst : Nat

/-- `struct Glop` (Glop.h lines 57-117): the five sub-records. -/
structure Glop where
  bounds : Rect
  mesh : Mesh
  fill : Fill
  transform : Transform
  blend : Blend

/-- Writing the matrix arm of the filter union of a `Fill`
(`fill.filter.matrix = m` in C++). -/
def Fill.writeMatrix (f : Fill) (m : MatrixArm) : Fill :=
  { f with filter := writeMatrixArm f.filter m }

/-- Writing the color arm of the filter union of a `Fill`
(`fill.filter.color = c` in C++). -/
def Fill.writeColor (f : Fill) (c : FloatColor) : Fill :=
  { f with filter := writeColorArm f.filter c }

/-- Reading the matrix arm of the filter union of a `Fill`.  The read is a
total function of the storage alone: nothing in the header guards it by the
`filterMode` tag. -/
def Fill.readMatrix (f : Fill) : MatrixArm :=
  readMatrixArm f.filter

/-- Reading the color arm of the filter union of a `Fill`; total, and not
guarded by the `filterMode` tag. -/
def Fill.readColor (f : Fill) : FloatColor :=
  readColorArm f.filter

/-- Writing the `filterMode` tag field; the header stores the tag adjacent to
the union, so the write touches no other field. -/
def Fill.setFilterMode (f : Fill) (mode : ColorFilterMode) : Fill :=
  { f with filterMode := mode }

/-- Overwriting the whole filter union storage; touches no other field. -/
def Fill.setFilter (f : Fill) (st : FilterStorage) : Fill :=
  { f with filter := st }

/-- Replacing the `bounds` sub-record of a `Glop`. -/
def Glop.setBounds (g : Glop) (b : Rect) : Glop :=
  { g with bounds := b }

/-- Replacing the `mesh` sub-record of a `Glop`. -/
def Glop.setMesh (g : Glop) (m : Mesh) : Glop :=
  { g with mesh := m }

/-- Replacing the `fill` sub-record of a `Glop`. -/
def Glop.setFill (g : Glop) (f : Fill) : Glop :=
  { g with fill := f }

/-- Replacing the `transform` sub-record of a `Glop`. -/
def Glop.setTransform (g : Glop) (t : Transform) : Glop :=
  { g with transform := t }

/-- Replacing the `blend` sub-record of a `Glop`. -/
def Glop.setBlend (g : Glop) (b : Blend) : Glop :=
  { g with blend := b }

/-- The implicitly-declared C++ copy constructor of `Glop`: the header
contains only a TODO (`// TODO: PREVENT_COPY_AND_ASSIGN(...) or similar`,
Glop.h line 56) and declares no deleted or private copy operations, so the
compiler-generated memberwise copy exists and is callable. -/
def Glop.copyConstruct (g : Glop) : Glop :=
  { bounds := g.bounds, mesh := g.mesh, fill := g.fill,
    transform := g.transform, blend := g.blend }

/-- The implicitly-declared C++ copy-assignment operator of `Glop`:
memberwise overwrite of the target from the source. -/
def Glop.copyAssign (_dst src : Glop) : Glop :=
  { bounds := src.bounds, mesh := src.mesh, fill := src.fill,
    transform := src.transform, blend := src.blend }

/-- Modelled from the spec: the GlopBuilder, which populates mesh channels, is
not part of the supplied source.  Per the spec, a vertex channel comes either
from a GPU buffer object (nonzero handle, no client pointer) or from a client
memory array (zero handle, non-null pointer). -/
inductive VertexSource where
  | bufferObject (handle : Nat)
  | clientArray (p : Ptr)

/-- Modelled from the spec: an index channel comes from a buffer object, a
client array, or is absent (non-indexed draw, both zero/null). -/
inductive IndexSource where
  | bufferObject (handle : Nat)
  | clientArray (p : Ptr)
  | nonIndexed

/-- A vertex source is valid when its identifier is a real one: a supplied
buffer handle is nonzero (zero means "no buffer object") and a supplied
client pointer is non-null. -/
def VertexSource.valid : VertexSource → Bool
  | .bufferObject handle => handle != 0
  | .clientArray p => p != 0

/-- An index source is valid under the same conventions; a non-indexed draw
is always valid. -/
def IndexSource.valid : IndexSource → Bool
  | .bufferObject handle => handle != 0
  | .clientArray p => p != 0
  | .nonIndexed => true

/-- Modelled from the spec: how the builder populates the vertex channel of a
mesh, leaving the unused alternative zero/null. -/
def Mesh.setVertexSource (m : Mesh) : VertexSource → Mesh
  | .bufferObject handle => { m with vertexBufferObject := handle, vertices := 0 }
  | .clientArray p => { m with vertexBufferObject := 0, vertices := p }

/-- Modelled from the spec: how the builder populates the index channel of a
mesh, leaving the unused alternatives zero/null. -/
def Mesh.setIndexSource (m : Mesh) : IndexSource → Mesh
  | .bufferObject handle => { m with indexBufferObject := handle, indices := 0 }
  | .clientArray p => { m with indexBufferObject := 0, indices := p }
  | .nonIndexed => { m with indexBufferObject := 0, indices := 0 }

/-- Modelled from the spec: the builder fills both channels of the mesh it
hands to the renderer. -/
def buildMeshChannels (m : Mesh) (v : VertexSource) (i : IndexSource) : Mesh :=
  (m.setVertexSource v).setIndexSource i

/-- Exclusive-or of a buffer handle and a client pointer: exactly one of
them is set, the other zero/null. -/
def exclusiveChannel (handle : Nat) (p : Ptr) : Bool :=
  (handle != 0 && p == 0) || (handle == 0 && p != 0)

/-- The mesh invariant at handoff (Glop.h line 67: "buffer objects and
void*s are mutually exclusive", line 68: "indices are optional"): the vertex
channel satisfies the exclusive-or, and the index channel either satisfies
it or is entirely absent. -/
def Mesh.handoffInvariant (m : Mesh) : Bool :=
  exclusiveChannel m.vertexBufferObject m.vertices &&
  (exclusiveChannel m.indexBufferObject m.indices ||
    (m.indexBufferObject == 0 && m.indices == 0))

/-- `GL_TRIANGLES`, from the GLES2 system header. -/
def GL_TRIANGLES : Nat := 0x0004

/-- `GL_TRIANGLE_STRIP`, from the GLES2 system header. -/
def GL_TRIANGLE_STRIP : Nat := 0x0005

/-- Modelled from the spec: the only primitive modes the surrounding code
uses (Glop.h line 72: "GL_TRIANGLES and GL_TRIANGLE_STRIP supported"). -/
inductive SupportedPrimitive where
  | triangles
  | triangleStrip

/-- The GL enumerator value of a supported primitive mode. -/
def SupportedPrimitive.toGLenum : SupportedPrimitive → Nat
  | .triangles => GL_TRIANGLES
  | .triangleStrip => GL_TRIANGLE_STRIP

/-- Modelled from the spec: the builder stores a supported primitive mode
into the mesh. -/
def Mesh.setPrimitiveMode (m : Mesh) (p : SupportedPrimitive) : Mesh :=
  { m with primitiveMode := p.toGLenum }

/-- Modelled from the spec: the builder stores the number of vertices (or
indices) to submit — a count, hence a natural number — into the C++ `int`
field. -/
def Mesh.setVertexCount (m : Mesh) (count : Nat) : Mesh :=
  { m with vertexCount := (count : Int) }

/-- The values the scalar, pointer and enum members of a default-initialized
`Glop` happen to hold.  `struct Glop` declares no constructors and no member
initializers, so C++ default-initialization (`Glop glop;`) leaves every
member of scalar, pointer or enumeration type with an indeterminate value:
whatever the underlying memory held.  Only the class-type members run a
constructor (the matrices and the bounds rectangle, declared in headers
outside the supplied source). -/
structure IndetState where
  vertexFlags : Nat
  primitiveMode : Nat
  vbo : Nat
  ibo : Nat
  vertices : Ptr
  indices : Ptr
  vertexCount : Int
  stride : Int
  program : Ptr
  colorA : F32
  colorR : F32
  colorG : F32
  colorB : F32
  filterMode : ColorFilterMode
  filter : FilterStorage
  fudgingOffset : Bool
  blendSrc : Nat
  blendDst : Nat

/-- C++ default-initialization of a `Glop` as a function of the indeterminate
memory contents: class-type members run their constructors (identity
matrices, zero rectangle — modelled from the spec since Matrix.h and Rect.h
are outside the supplied source), every other member passes the memory
through. -/
def Glop.defaultInit (s : IndetState) : Glop where
  bounds := Rect.zero
  mesh :=
    { vertexFlags := s.vertexFlags, primitiveMode := s.primitiveMode,
      vertexBufferObject := s.vbo, indexBufferObject := s.ibo,
      vertices := s.vertices, indices := s.indices,
      vertexCount := s.vertexCount, stride := s.stride }
  fill :=
    { program := s.program,
      color := ⟨s.colorA, s.colorR, s.colorG, s.colorB⟩,
      filterMode := s.filterMode, filter := s.filter }
  transform :=
    { ortho := Matrix4.identity, modelView := Matrix4.identity,
      canvas := Matrix4.identity, fudgingOffset := s.fudgingOffset }
  blend := { src := s.blendSrc, dst := s.blendDst }

/-- The zeroing property claimed of default-construction: every field listed
by the spec is zero/null/empty/false, the matrices identity. -/
def Glop.claimedZeroed (g : Glop) : Prop :=
  g.mesh.vertexBufferObject = 0 ∧ g.mesh.vertices = 0 ∧ g.mesh.indices = 0 ∧
  g.mesh.vertexCount = 0 ∧ g.mesh.vertexFlags = kNone_Attrib ∧
  g.fill.program = 0 ∧ g.fill.color = ⟨0, 0, 0, 0⟩ ∧
  g.transform.ortho = Matrix4.identity ∧
  g.transform.modelView = Matrix4.identity ∧
  g.transform.canvas = Matrix4.identity ∧
  g.transform.fudgingOffset = false ∧
  g.blend.src = 0 ∧ g.blend.dst = 0

/-- A concrete descriptor: a client-memory red triangle. -/
def glop0 : Glop where
  bounds := ⟨0, 0, floatOneBits, floatOneBits⟩
  mesh :=
    { vertexFlags := kTextureCoord_Attrib, primitiveMode := GL_TRIANGLES,
      vertexBufferObject := 0, indexBufferObject := 0,
      vertices := 1024, indices := 0, vertexCount := 3, stride := 8 }
  fill :=
    { program := 2048, color := ⟨floatOneBits, floatOneBits, 0, 0⟩,
      filterMode := ColorFilterMode.none, filter := fun _ => 0 }
  transform :=
    { ortho := Matrix4.identity, modelView := Matrix4.identity,
      canvas := Matrix4.identity, fudgingOffset := false }
  blend := { src := 1, dst := 0 }

/-- A second concrete descriptor, differing from `glop0` in its blend pair. -/
def glop1 : Glop := glop0.setBlend ⟨7, 7⟩

/-- Concrete indeterminate memory contents: every scalar slot holds 7 (or an
equally non-neutral value). -/
def indet7 : IndetState where
  vertexFlags := 7
  primitiveMode := 7
  vbo := 7
  ibo := 7
  vertices := 7
  indices := 7
  vertexCount := -7
  stride := 7
  program := 7
  colorA := 7
  colorR := 7
  colorG := 7
  colorB := 7
  filterMode := ColorFilterMode.blend 7
  filter := fun _ => 7
  fudgingOffset := true
  blendSrc := 7
  blendDst := 7

/-- A concrete all-zero mesh to build on. -/
def mesh0 : Mesh where
  vertexFlags := 0
  primitiveMode := 0
  vertexBufferObject := 0
  indexBufferObject := 0
  vertices := 0
  indices := 0
  vertexCount := 0
  stride := 0

/-- A concrete fill with no filter configured. -/
def fillBase : Fill where
  program := 0
  color := ⟨0, 0, 0, 0⟩
  filterMode := ColorFilterMode.none
  filter := fun _ => 0

/-- `fillBase` with the color-matrix filter mode selected. -/
def fillMatrixMode : Fill := fillBase.setFilterMode ColorFilterMode.matrix

/-- `fillBase` with a blend-mode color filter selected. -/
def fillBlendMode : Fill := fillBase.setFilterMode (ColorFilterMode.blend 3)

/-- A concrete matrix arm with pairwise distinct entries. -/
def matrixArm0 : MatrixArm := ⟨fun i => (i : Nat) + 1, fun j => 100 + (j : Nat)⟩

/-- Reading the matrix arm back after writing it recovers exactly the written
matrix and vector. -/
theorem readMatrixArm_writeMatrixArm (st : FilterStorage) (m : MatrixArm) :
    readMatrixArm (writeMatrixArm st m) = m := by
  refine MatrixArm.ext ?_ ?_
  · funext j
    simp only [readMatrixArm, writeMatrixArm]
    rw [dif_pos j.isLt]
  · funext j
    simp only [readMatrixArm, writeMatrixArm]
    rw [dif_neg (by omega)]
    exact congrArg m.vector
      (Fin.ext (show 16 + (j : Nat) - 16 = (j : Nat) by omega))

/-- C1 (amended): copying a Glop is not disabled — the compiler-generated
copy constructor and copy-assignment operator exist (Glop.h line 56 leaves
their prevention as a TODO) and perform a memberwise by-value copy, so the
copy and the assigned-to descriptor are exact duplicates of the source. -/
theorem copy_and_assign_memberwise (g d : Glop) :
    Glop.copyConstruct g = g ∧ Glop.copyAssign d g = g :=
  ⟨rfl, rfl⟩

/-- C1 counterexample to the claim as stated: the claim says no duplicate of
any descriptor can be made by copy construction or copy assignment, yet copy
constructing the concrete descriptor `glop0` (and copy-assigning it over
`glop1`) succeeds and yields an exact duplicate of `glop0`. -/
theorem copy_duplicates_glop0 :
    Glop.copyConstruct glop0 = glop0 ∧ Glop.copyAssign glop1 glop0 = glop0 :=
  ⟨rfl, rfl⟩

/-- C2 (amended): default-construction of a `Glop` zeroes none of its scalar,
pointer or enum members — `struct Glop` declares no constructors and no
member initializers, so those members keep whatever indeterminate value the
underlying memory held; only the class-type members run constructors (the
three matrices load identity, the bounds rectangle zeroes, per the headers
outside the supplied source). -/
theorem default_init_passes_through (s : IndetState) :
    (Glop.defaultInit s).mesh.vertexBufferObject = s.vbo ∧
    (Glop.defaultInit s).mesh.indexBufferObject = s.ibo ∧
    (Glop.defaultInit s).mesh.vertices = s.vertices ∧
    (Glop.defaultInit s).mesh.indices = s.indices ∧
    (Glop.defaultInit s).mesh.vertexCount = s.vertexCount ∧
    (Glop.defaultInit s).mesh.vertexFlags = s.vertexFlags ∧
    (Glop.defaultInit s).mesh.primitiveMode = s.primitiveMode ∧
    (Glop.defaultInit s).mesh.stride = s.stride ∧
    (Glop.defaultInit s).fill.program = s.program ∧
    (Glop.defaultInit s).fill.color = ⟨s.colorA, s.colorR, s.colorG, s.colorB⟩ ∧
    (Glop.defaultInit s).transform.fudgingOffset = s.fudgingOffset ∧
    (Glop.defaultInit s).blend.src = s.blendSrc ∧
    (Glop.defaultInit s).blend.dst = s.blendDst ∧
    (Glop.defaultInit s).transform.ortho = Matrix4.identity ∧
    (Glop.defaultInit s).transform.modelView = Matrix4.identity ∧
    (Glop.defaultInit s).transform.canvas = Matrix4.identity ∧
    (Glop.defaultInit s).bounds = Rect.zero :=
  ⟨rfl, rfl, rfl, rfl, rfl, rfl, rfl, rfl, rfl, rfl, rfl, rfl, rfl, rfl,
   rfl, rfl, rfl⟩

/-- C2 counterexample to the claim as stated: default-constructing a `Glop`
over memory whose slots hold the value 7 leaves the vertex-buffer handle at
7, not 0, so default-construction does not zero or neutralize every field. -/
theorem default_init_not_zeroed :
    ¬ Glop.claimedZeroed (Glop.defaultInit indet7) :=
  fun h => absurd h.1 (by decide)

/-- C3: every mesh whose channels the builder populates from valid sources
satisfies the exclusive-or invariant: the vertex channel has exactly one of
buffer handle / client pointer set, and the index channel likewise or is
entirely absent (non-indexed draw). -/
theorem built_mesh_xor_invariant (m : Mesh) (v : VertexSource) (i : IndexSource)
    (hv : v.valid = true) (hi : i.valid = true) :
    (buildMeshChannels m v i).handoffInvariant = true := by
  cases v <;> cases i <;>
    simp_all [VertexSource.valid, IndexSource.valid, buildMeshChannels,
      Mesh.setVertexSource, Mesh.setIndexSource, Mesh.handoffInvariant,
      exclusiveChannel]

/-- Witness for C3: a concrete build from vertex buffer 17 and a client index
array at address 4096 satisfies the invariant. -/
theorem built_mesh_xor_invariant_witness :
    (VertexSource.bufferObject 17).valid = true ∧
    (IndexSource.clientArray 4096).valid = true ∧
    (buildMeshChannels mesh0 (VertexSource.bufferObject 17)
      (IndexSource.clientArray 4096)).handoffInvariant = true :=
  ⟨by decide, by decide,
    built_mesh_xor_invariant mesh0 (VertexSource.bufferObject 17)
      (IndexSource.clientArray 4096) (by decide) (by decide)⟩

/-- C4: filter tag/payload coherence round-trips — with the matrix mode
selected, writing a matrix and vector into the matrix arm and reading that
arm back yields exactly the written matrix and vector; with a blend-mode
color mode selected, writing a color into the color arm and reading that arm
back yields exactly the written color. -/
theorem filter_arm_roundtrip (f g : Fill) (m : MatrixArm) (c : FloatColor)
    (xf : Nat) (_hf : f.filterMode = ColorFilterMode.matrix)
    (_hg : g.filterMode = ColorFilterMode.blend xf) :
    (f.writeMatrix m).readMatrix = m ∧ (g.writeColor c).readColor = c :=
  ⟨readMatrixArm_writeMatrixArm f.filter m, rfl⟩

/-- Witness for C4: concrete fills in matrix mode and in blend mode 3
round-trip a concrete matrix arm and the color (1, 2, 3, 4). -/
theorem filter_arm_roundtrip_witness :
    fillMatrixMode.filterMode = ColorFilterMode.matrix ∧
    fillBlendMode.filterMode = ColorFilterMode.blend 3 ∧
    (fillMatrixMode.writeMatrix matrixArm0).readMatrix = matrixArm0 ∧
    (fillBlendMode.writeColor ⟨1, 2, 3, 4⟩).readColor = ⟨1, 2, 3, 4⟩ :=
  ⟨rfl, rfl,
    (filter_arm_roundtrip fillMatrixMode fillBlendMode matrixArm0
      ⟨1, 2, 3, 4⟩ 3 rfl rfl).1,
    (filter_arm_roundtrip fillMatrixMode fillBlendMode matrixArm0
      ⟨1, 2, 3, 4⟩ 3 rfl rfl).2⟩

/-- C5: the optional vertex-attribute flags are exactly texture-coordinate,
per-vertex color and per-vertex alpha; each is a distinct nonzero single bit,
no position flag value exists in the set (the empty set `kNone_Attrib = 0` is
not an optional flag), and the three flags set simultaneously are each
independently readable back by masking. -/
theorem vertex_attrib_flags_spec :
    optionalAttribFlags = [kTextureCoord_Attrib, kColor_Attrib, kAlpha_Attrib] ∧
    kNone_Attrib = 0 ∧ kNone_Attrib ∉ optionalAttribFlags ∧
    (∀ f ∈ optionalAttribFlags, f ≠ 0 ∧ f &&& (f - 1) = 0) ∧
    List.Pairwise (fun x y => x ≠ y ∧ x &&& y = 0) optionalAttribFlags ∧
    (kTextureCoord_Attrib ||| kColor_Attrib ||| kAlpha_Attrib) &&&
      kTextureCoord_Attrib = kTextureCoord_Attrib ∧
    (kTextureCoord_Attrib ||| kColor_Attrib ||| kAlpha_Attrib) &&&
      kColor_Attrib = kColor_Attrib ∧
    (kTextureCoord_Attrib ||| kColor_Attrib ||| kAlpha_Attrib) &&&
      kAlpha_Attrib = kAlpha_Attrib := by
  decide

/-- C6: a `FloatColor` built from four floats stores them in the declaration
order alpha, red, green, blue, and each channel reads back unchanged. -/
theorem float_color_channel_order (a r g b : F32) :
    (FloatColor.mk a r g b).declOrder = [a, r, g, b] ∧
    (FloatColor.mk a r g b).a = a ∧ (FloatColor.mk a r g b).r = r ∧
    (FloatColor.mk a r g b).g = g ∧ (FloatColor.mk a r g b).b = b :=
  ⟨rfl, rfl, rfl, rfl, rfl⟩

/-- C7: the primitive mode the builder stores is always one of GL_TRIANGLES
and GL_TRIANGLE_STRIP. -/
theorem primitive_mode_supported (m : Mesh) (p : SupportedPrimitive) :
    (m.setPrimitiveMode p).primitiveMode = GL_TRIANGLES ∨
    (m.setPrimitiveMode p).primitiveMode = GL_TRIANGLE_STRIP := by
  cases p
  · exact Or.inl rfl
  · exact Or.inr rfl

/-- C8: the vertex count the builder stores — a count of vertices or indices
— is non-negative as a value of the C++ `int` field. -/
theorem vertex_count_nonneg (m : Mesh) (count : Nat) :
    0 ≤ (m.setVertexCount count).vertexCount :=
  Int.natCast_nonneg count

/-- C9: the filter union is untagged and its arms share storage — after
writing a color into the color arm, reading the matrix arm is defined and its
first four matrix entries are the color's a, r, g, b; writing the matrix arm
overwrites the color arm with the first four matrix entries; and neither read
is guarded by the filter-mode tag: changing the tag changes neither arm's
read. -/
theorem union_untagged_overlap (f : Fill) (c : FloatColor) (m : MatrixArm)
    (mode1 mode2 : ColorFilterMode) :
    ((f.writeColor c).readMatrix.matrix 0 = c.a ∧
     (f.writeColor c).readMatrix.matrix 1 = c.r ∧
     (f.writeColor c).readMatrix.matrix 2 = c.g ∧
     (f.writeColor c).readMatrix.matrix 3 = c.b) ∧
    (f.writeMatrix m).readColor =
      ⟨m.matrix 0, m.matrix 1, m.matrix 2, m.matrix 3⟩ ∧
    (f.setFilterMode mode1).readMatrix = (f.setFilterMode mode2).readMatrix ∧
    (f.setFilterMode mode1).readColor = (f.setFilterMode mode2).readColor :=
  ⟨⟨rfl, rfl, rfl, rfl⟩, rfl, rfl, rfl⟩

/-- C10: the five sub-records are independent — replacing any one of bounds,
mesh, fill, transform or blend leaves the other four unchanged, and within
the fill, writing the filter-mode tag leaves the filter payload unchanged and
writing the payload leaves the tag unchanged. -/
theorem subrecords_independent (g : Glop) (b : Rect) (m : Mesh) (f : Fill)
    (t : Transform) (bl : Blend) (cm : ColorFilterMode) (st : FilterStorage) :
    ((g.setBounds b).mesh = g.mesh ∧ (g.setBounds b).fill = g.fill ∧
     (g.setBounds b).transform = g.transform ∧ (g.setBounds b).blend = g.blend) ∧
    ((g.setMesh m).bounds = g.bounds ∧ (g.setMesh m).fill = g.fill ∧
     (g.setMesh m).transform = g.transform ∧ (g.setMesh m).blend = g.blend) ∧
    ((g.setFill f).bounds = g.bounds ∧ (g.setFill f).mesh = g.mesh ∧
     (g.setFill f).transform = g.transform ∧ (g.setFill f).blend = g.blend) ∧
    ((g.setTransform t).bounds = g.bounds ∧ (g.setTransform t).mesh = g.mesh ∧
     (g.setTransform t).fill = g.fill ∧ (g.setTransform t).blend = g.blend) ∧
    ((g.setBlend bl).bounds = g.bounds ∧ (g.setBlend bl).mesh = g.mesh ∧
     (g.setBlend bl).fill = g.fill ∧
     (g.setBlend bl).transform = g.transform) ∧
    ((g.fill.setFilterMode cm).filter = g.fill.filter ∧
     (g.fill.setFilter st).filterMode = g.fill.filterMode) :=
  ⟨⟨rfl, rfl, rfl, rfl⟩, ⟨rfl, rfl, rfl, rfl⟩, ⟨rfl, rfl, rfl, rfl⟩,
   ⟨rfl, rfl, rfl, rfl⟩, ⟨rfl, rfl, rfl, rfl⟩, ⟨rfl, rfl⟩⟩

end Hwui
